import Mathlib

/-!
Verification of the authentication and session-lifecycle core of the
initial-node-js REST API, as a shallow embedding in Lean 4.

Conventions of the embedding:
* Times are naturals, in milliseconds since the epoch (`Date.now()`).
* Signing secrets are naturals; two JWTs are equal as values exactly when
  their payload and signing secret coincide, which mirrors equality of the
  encoded token strings.
* A signed JWT is represented by the `SignedToken` structure: the claims it
  carries (each optional, since the different signing sites embed different
  claim sets) together with the secret that signed it.
* Database tables are lists of rows; `List.find?` models `findOne` and a
  map over the list models an `UPDATE ... WHERE` keyed by primary key.
* `ApiErr` mirrors the `ApiError(statusCode, message)` constructor used by
  the controllers; middleware responses written via `res.status(s).json`
  are modelled by the same structure.
-/

/-- HTTP-error value thrown by controllers (`ApiError(statusCode, message)`). -/
structure ApiErr where
  statusCode : Nat
  message : String
  deriving Repr, DecidableEq

/-- The claims of a signed JWT together with the secret that signed it.
`userId` is set by the user-side signing sites, `adminId`/`role` by the
admin-side ones, `type` by the token service (`'access'`/`'refresh'`),
`iss`/`aud` by the token service only. -/
structure SignedToken where
  secret : Nat
  userId : Option Nat := none
  adminId : Option Nat := none
  role : Option String := none
  tokType : Option String := none
  iat : Nat
  exp : Nat
  iss : Option String := none
  aud : Option String := none
  deriving Repr, DecidableEq

/-- Failure modes of `jwt.verify`: `invalidSignature` and `claimMismatch`
surface as `JsonWebTokenError`, `expired` as `TokenExpiredError`. -/
inductive JwtError where
  | invalidSignature
  | expired
  | claimMismatch
  deriving Repr, DecidableEq

/-- `jwt.verify(token, secret, { issuer?, audience? })`: checks the
signature (here: the signing secret), then expiry, then the issuer and
audience claims when the caller supplied expected values. -/
def jwtVerify (tok : SignedToken) (secret : Nat) (iss aud : Option String)
    (now : Nat) : Except JwtError SignedToken :=
  if tok.secret ≠ secret then .error .invalidSignature
  else if tok.exp ≤ now then .error .expired
  else if iss.isSome ∧ iss ≠ tok.iss then .error .claimMismatch
  else if aud.isSome ∧ aud ≠ tok.aud then .error .claimMismatch
  else .ok tok

/-- Boolean error test for `Except`. -/
def isErr : Except ε α → Bool
  | .error _ => true
  | .ok _ => false

deriving instance DecidableEq for Except

/-- The JWT-related part of `config` (`config.jwt.*`, `config.app.name`):
four signing secrets plus the two user-side TTLs. -/
structure JwtCfg where
  accessSecret : Nat
  refreshSecret : Nat
  adminAccessSecret : Nat
  adminRefreshSecret : Nat
  accessExpiryMs : Nat
  refreshExpiryMs : Nat
  appName : String
  deriving Repr, DecidableEq

/-- `token.service.js` `generateAccessToken`: signs `{ userId, type: 'access' }`
with the access secret, issuer and audience both `config.app.name`. -/
def generateAccessToken (cfg : JwtCfg) (userId : Nat) (now : Nat) : SignedToken :=
  { secret := cfg.accessSecret
    userId := some userId
    tokType := some "access"
    iat := now
    exp := now + cfg.accessExpiryMs
    iss := some cfg.appName
    aud := some cfg.appName }

/-- `token.service.js` `generateRefreshToken`: signs `{ userId, type: 'refresh' }`
with the refresh secret, issuer and audience both `config.app.name`. -/
def generateRefreshToken (cfg : JwtCfg) (userId : Nat) (now : Nat) : SignedToken :=
  { secret := cfg.refreshSecret
    userId := some userId
    tokType := some "refresh"
    iat := now
    exp := now + cfg.refreshExpiryMs
    iss := some cfg.appName
    aud := some cfg.appName }

/-- `token.service.js` `verifyAccessToken`: `jwt.verify` under the access
secret with issuer/audience checks, then the `type === 'access'` check;
errors are mapped to `'Token expired'` / `'Invalid token'` / the rethrown
`'Invalid token type'`. -/
def verifyAccessToken (cfg : JwtCfg) (tok : SignedToken) (now : Nat) :
    Except String SignedToken :=
  match jwtVerify tok cfg.accessSecret (some cfg.appName) (some cfg.appName) now with
  | .error .expired => .error "Token expired"
  | .error _ => .error "Invalid token"
  | .ok p => if p.tokType = some "access" then .ok p else .error "Invalid token type"

/-- `token.service.js` `verifyRefreshToken`: `jwt.verify` under the refresh
secret with issuer/audience checks, then the `type === 'refresh'` check. -/
def verifyRefreshToken (cfg : JwtCfg) (tok : SignedToken) (now : Nat) :
    Except String SignedToken :=
  match jwtVerify tok cfg.refreshSecret (some cfg.appName) (some cfg.appName) now with
  | .error .expired => .error "Refresh token expired"
  | .error _ => .error "Invalid refresh token"
  | .ok p => if p.tokType = some "refresh" then .ok p else .error "Invalid token type"

/-- Claim C4: token kind isolation — for every configuration, principal id,
issue time and verification time, a token produced by `generateAccessToken`
fails `verifyRefreshToken`, and a token produced by `generateRefreshToken`
fails `verifyAccessToken`; verification checks both the signing secret and
the embedded `type` tag, so this holds even when the two secrets happen to
coincide. -/
theorem c4_token_kind_isolation (cfg : JwtCfg) (uid now t : Nat) :
    isErr (verifyRefreshToken cfg (generateAccessToken cfg uid now) t) = true ∧
    isErr (verifyAccessToken cfg (generateRefreshToken cfg uid now) t) = true := by
  constructor
  · unfold verifyRefreshToken generateAccessToken jwtVerify
    by_cases h1 : cfg.accessSecret ≠ cfg.refreshSecret
    · simp [h1, isErr]
    · by_cases h2 : now + cfg.accessExpiryMs ≤ t <;> simp [h1, h2, isErr]
  · unfold verifyAccessToken generateRefreshToken jwtVerify
    by_cases h1 : cfg.refreshSecret ≠ cfg.accessSecret
    · simp [h1, isErr]
    · by_cases h2 : now + cfg.refreshExpiryMs ≤ t <;> simp [h1, h2, isErr]

/-- A row of the `users` table as defined by `defineUserModel`
(`user.model.js`): identity and flags, the embedded refresh-token triplet
and the OTP quadruple, plus the soft-delete marker and the
Sequelize-managed `updatedAt` timestamp. -/
structure UserRow where
  id : Nat
  phoneNumber : String
  email : Option String := none
  firstName : Option String := none
  lastName : Option String := none
  isActive : Bool := true
  isVerified : Bool := false
  lastLogin : Option Nat := none
  refreshToken : Option SignedToken := none
  refreshTokenExpiresAt : Option Nat := none
  refreshTokenRevokedAt : Option Nat := none
  currentOtp : Option String := none
  otpExpiresAt : Option Nat := none
  otpAttempts : Nat := 0
  otpIsUsed : Bool := false
  deletedAt : Option Nat := none
  updatedAt : Nat := 0
  deriving Repr, DecidableEq

/-- `User.findOne({ where })` over the table: first row satisfying the
where clause. -/
def findOneUser (db : List UserRow) (p : UserRow → Bool) : Option UserRow :=
  db.find? p

/-- `user.update(...)` / `User.update(..., { where: { id } })`: rewrites the
row(s) with the given primary key, leaving all other rows unchanged. -/
def updateUserRow (db : List UserRow) (uid : Nat) (f : UserRow → UserRow) :
    List UserRow :=
  db.map fun u => if u.id = uid then f u else u

/-- `OTP_EXPIRY_MINUTES * 60 * 1000`. -/
def otpExpiryMs : Nat := 5 * 60 * 1000

/-- `OTP_RATE_LIMIT_SECONDS` in milliseconds. -/
def otpRateLimitMs : Nat := 60 * 1000

/-- `MAX_OTP_ATTEMPTS`. -/
def maxOtpAttempts : Nat := 5

/-- `REFRESH_TOKEN_EXPIRY_DAYS` in milliseconds. -/
def refreshTokenExpiryDaysMs : Nat := 7 * 24 * 60 * 60 * 1000

/-- The `ApiError(401, ...)` thrown when no OTP is on file. -/
def noOtpErr : ApiErr := ⟨401, "No OTP found. Please request a new OTP"⟩

/-- The `ApiError(401, ...)` thrown when the stored OTP was already used. -/
def otpUsedErr : ApiErr := ⟨401, "OTP already used. Please request a new OTP"⟩

/-- The `ApiError(429, ...)` thrown when the attempt ceiling is reached. -/
def tooManyAttemptsErr : ApiErr :=
  ⟨429, "Too many failed attempts. Please request a new OTP"⟩

/-- The `ApiError(401, ...)` thrown when the stored OTP has expired. -/
def otpExpiredErr : ApiErr := ⟨401, "OTP expired. Please request a new OTP"⟩

/-- The `ApiError(401, ...)` thrown on an OTP mismatch, carrying the
remaining-attempts count in its message. -/
def invalidOtpErr (remaining : Nat) : ApiErr :=
  ⟨401, "Invalid OTP. " ++ toString remaining ++ " attempts remaining"⟩

/-- The `ApiError(429, ...)` thrown by the OTP rate check, carrying the
wait time in seconds in its message. -/
def rateLimitedErr (waitSeconds : Nat) : ApiErr :=
  ⟨429, "Please wait " ++ toString waitSeconds ++
    " seconds before requesting a new OTP"⟩

/-- `auth.controller.js` `validateOTP(user, otp)`: the ordered,
short-circuiting checks — OTP on file, not already used, attempt ceiling,
expiry (`new Date() > user.otpExpiresAt`), then the match itself.
A mismatch is reported as `ok false`; the caller increments the attempt
counter. -/
def validateOTP (u : UserRow) (otp : String) (now : Nat) : Except ApiErr Bool :=
  match u.currentOtp, u.otpExpiresAt with
  | none, _ => .error noOtpErr
  | some _, none => .error noOtpErr
  | some stored, some expiresAt =>
    if u.otpIsUsed then .error otpUsedErr
    else if maxOtpAttempts ≤ u.otpAttempts then .error tooManyAttemptsErr
    else if expiresAt < now then .error otpExpiredErr
    else if stored ≠ otp then .ok false
    else .ok true

/-- The shared submission step of `verifyRegisterOTP` and `verifyLoginOTP`:
run `validateOTP`; on a mismatch, persistently increment `otpAttempts`
(`user.increment('otpAttempts')`) and fail with the remaining-attempts
message `MAX_OTP_ATTEMPTS - (user.otpAttempts + 1)`. -/
def otpSubmit (u : UserRow) (otp : String) (now : Nat) :
    UserRow × Except ApiErr Unit :=
  match validateOTP u otp now with
  | .error e => (u, .error e)
  | .ok false =>
    ({ u with otpAttempts := u.otpAttempts + 1 },
      .error (invalidOtpErr (maxOtpAttempts - (u.otpAttempts + 1))))
  | .ok true => (u, .ok ())

/-- `auth.controller.js` `checkOTPRateLimit(user)`: no previous OTP on file
(`!user.otpExpiresAt`) passes; otherwise, when fewer than 60 seconds have
elapsed since `user.updatedAt`, fail 429 with
`Math.ceil(60 - elapsedSeconds)` as the wait time. -/
def checkOTPRateLimit (u : UserRow) (now : Nat) : Option ApiErr :=
  match u.otpExpiresAt with
  | none => none
  | some _ =>
    let elapsedMs := now - u.updatedAt
    if elapsedMs < otpRateLimitMs then
      some (rateLimitedErr ((otpRateLimitMs - elapsedMs + 999) / 1000))
    else none

/-- The `{ otpIsUsed: true }` update performed by `verifyLoginOTP` after a
successful match (Sequelize `update` also bumps `updatedAt`). -/
def markOtpUsed (u : UserRow) (now : Nat) : UserRow :=
  { u with otpIsUsed := true, updatedAt := now }

/-- `auth.controller.js` `generateTokens(userId)`: `jwt.sign({ userId })`
under the access and refresh secrets with the configured TTLs (no `type`,
issuer or audience claims at this signing site). -/
def generateTokens (cfg : JwtCfg) (userId : Nat) (now : Nat) :
    SignedToken × SignedToken :=
  ({ secret := cfg.accessSecret, userId := some userId,
     iat := now, exp := now + cfg.accessExpiryMs },
   { secret := cfg.refreshSecret, userId := some userId,
     iat := now, exp := now + cfg.refreshExpiryMs })

/-- The `{ currentOtp, otpExpiresAt, otpAttempts: 0, otpIsUsed: false }`
update performed by every OTP-issuing endpoint. -/
def issueOtpUpdate (otp : String) (now : Nat) (u : UserRow) : UserRow :=
  { u with
      currentOtp := some otp
      otpExpiresAt := some (now + otpExpiryMs)
      otpAttempts := 0
      otpIsUsed := false
      updatedAt := now }

/-- `POST /api/auth/register/send-otp` (`sendRegisterOTP`): conflict when a
verified user holds the phone number; for an existing unverified row, pass
the rate check and overwrite names and OTP state; otherwise create a fresh
unverified row carrying the OTP. The generated OTP and the id of a newly
created row are parameters (they are random / database-assigned). -/
def sendRegisterOTPOp (db : List UserRow) (phoneNumber : Option String)
    (firstName lastName : Option String) (otp : String) (newId : Nat)
    (now : Nat) : List UserRow × Except ApiErr Unit :=
  match phoneNumber with
  | none => (db, .error ⟨400, "Phone number is required"⟩)
  | some phone =>
    match findOneUser db (fun u => u.phoneNumber == phone && u.deletedAt == none) with
    | some u =>
      if u.isVerified then
        (db, .error ⟨409, "Phone number already registered. Please login instead"⟩)
      else
        match checkOTPRateLimit u now with
        | some e => (db, .error e)
        | none =>
          (updateUserRow db u.id (fun w =>
            issueOtpUpdate otp now
              { w with
                  firstName := firstName.or w.firstName
                  lastName := lastName.or w.lastName }), .ok ())
    | none =>
      (db ++ [issueOtpUpdate otp now
        { id := newId
          phoneNumber := phone
          firstName := firstName
          lastName := lastName
          isVerified := false
          updatedAt := now }], .ok ())

/-- `POST /api/auth/login/send-otp` (`sendLoginOTP`): lookup by phone,
then the `isVerified` / `isActive` gates, then the rate check, then store
a fresh OTP. -/
def sendLoginOTPOp (db : List UserRow) (phoneNumber : Option String)
    (otp : String) (now : Nat) : List UserRow × Except ApiErr Unit :=
  match phoneNumber with
  | none => (db, .error ⟨400, "Phone number is required"⟩)
  | some phone =>
    match findOneUser db (fun u => u.phoneNumber == phone && u.deletedAt == none) with
    | none => (db, .error ⟨404, "Phone number not registered. Please register first"⟩)
    | some u =>
      if ¬ u.isVerified then
        (db, .error ⟨403, "Please complete registration first"⟩)
      else if ¬ u.isActive then
        (db, .error ⟨403, "Account is deactivated. Please contact support"⟩)
      else
        match checkOTPRateLimit u now with
        | some e => (db, .error e)
        | none => (updateUserRow db u.id (issueOtpUpdate otp now), .ok ())

/-- `POST /api/auth/resend-otp` (`resendOTP`): lookup by phone, rate check,
then store a fresh OTP (no verified/active gates on this endpoint). -/
def resendOTPOp (db : List UserRow) (phoneNumber : Option String)
    (otp : String) (now : Nat) : List UserRow × Except ApiErr Unit :=
  match phoneNumber with
  | none => (db, .error ⟨400, "Phone number is required"⟩)
  | some phone =>
    match findOneUser db (fun u => u.phoneNumber == phone && u.deletedAt == none) with
    | none => (db, .error ⟨404, "Phone number not registered"⟩)
    | some u =>
      match checkOTPRateLimit u now with
      | some e => (db, .error e)
      | none => (updateUserRow db u.id (issueOtpUpdate otp now), .ok ())

/-- The refresh-token persistence step shared by the OTP verify endpoints
and the refresh endpoint: store the new refresh token, set its absolute
expiry seven days out, and clear `refreshTokenRevokedAt`. -/
def storeRefreshTokenUpdate (tok : SignedToken) (now : Nat) (u : UserRow) : UserRow :=
  { u with
      refreshToken := some tok
      refreshTokenExpiresAt := some (now + refreshTokenExpiryDaysMs)
      refreshTokenRevokedAt := none
      updatedAt := now }

/-- `POST /api/auth/login/verify-otp` (`verifyLoginOTP`): lookup by phone,
`isVerified` / `isActive` gates, then the OTP submission step; on a match,
mark the OTP used, mint a token pair, store the refresh token and stamp
`lastLogin`. Returns the access token on success. -/
def verifyLoginOTPOp (cfg : JwtCfg) (db : List UserRow)
    (phoneNumber otp : Option String) (now : Nat) :
    List UserRow × Except ApiErr SignedToken :=
  match phoneNumber, otp with
  | none, _ => (db, .error ⟨400, "Phone number and OTP are required"⟩)
  | _, none => (db, .error ⟨400, "Phone number and OTP are required"⟩)
  | some phone, some code =>
    match findOneUser db (fun u => u.phoneNumber == phone && u.deletedAt == none) with
    | none => (db, .error ⟨404, "User not found"⟩)
    | some u =>
      if ¬ u.isVerified then
        (db, .error ⟨403, "Please complete registration first"⟩)
      else if ¬ u.isActive then
        (db, .error ⟨403, "Account is deactivated. Please contact support"⟩)
      else
        match otpSubmit u code now with
        | (u2, .error e) => (updateUserRow db u.id (fun _ => u2), .error e)
        | (_, .ok _) =>
          let pair := generateTokens cfg u.id now
          let u3 := { storeRefreshTokenUpdate pair.2 now (markOtpUsed u now)
            with lastLogin := some now }
          (updateUserRow db u.id (fun _ => u3), .ok pair.1)

/-- `POST /api/auth/register/verify-otp` (`verifyRegisterOTP`): lookup by
phone, already-verified conflict, then the OTP submission step; on a
match, mark the OTP used and the user verified, mint a token pair and
store the refresh token. Returns the access token on success. -/
def verifyRegisterOTPOp (cfg : JwtCfg) (db : List UserRow)
    (phoneNumber otp : Option String) (now : Nat) :
    List UserRow × Except ApiErr SignedToken :=
  match phoneNumber, otp with
  | none, _ => (db, .error ⟨400, "Phone number and OTP are required"⟩)
  | _, none => (db, .error ⟨400, "Phone number and OTP are required"⟩)
  | some phone, some code =>
    match findOneUser db (fun u => u.phoneNumber == phone && u.deletedAt == none) with
    | none => (db, .error ⟨404, "User not found. Please request OTP first"⟩)
    | some u =>
      if u.isVerified then
        (db, .error ⟨409, "User already verified. Please login instead"⟩)
      else
        match otpSubmit u code now with
        | (u2, .error e) => (updateUserRow db u.id (fun _ => u2), .error e)
        | (_, .ok _) =>
          let pair := generateTokens cfg u.id now
          let u3 := storeRefreshTokenUpdate pair.2 now
            { u with otpIsUsed := true, isVerified := true, updatedAt := now }
          (updateUserRow db u.id (fun _ => u3), .ok pair.1)

/-- The where clause of the refresh endpoint's user lookup:
`{ id: decoded.userId, refreshToken, deletedAt: null }`. -/
def refreshLookup (tok : SignedToken) (u : UserRow) : Bool :=
  tok.userId == some u.id && u.refreshToken == some tok && u.deletedAt == none

/-- `POST /api/auth/refresh` (`refreshToken` in `auth.controller.js`):
verify the presented JWT under the refresh secret, find the user whose
stored token equals the presented one, check revocation, stored expiry and
`isActive`, then rotate — mint a new pair and overwrite the stored token.
Returns the new (access, refresh) pair on success. -/
def refreshTokenOp (cfg : JwtCfg) (db : List UserRow)
    (presented : Option SignedToken) (now : Nat) :
    List UserRow × Except ApiErr (SignedToken × SignedToken) :=
  match presented with
  | none => (db, .error ⟨401, "Refresh token required"⟩)
  | some tok =>
    match jwtVerify tok cfg.refreshSecret none none now with
    | .error _ => (db, .error ⟨401, "Invalid or expired refresh token"⟩)
    | .ok _ =>
      match findOneUser db (refreshLookup tok) with
      | none => (db, .error ⟨401, "Refresh token not found or invalid"⟩)
      | some u =>
        if u.refreshTokenRevokedAt ≠ none then
          (db, .error ⟨401, "Refresh token has been revoked"⟩)
        else if u.refreshTokenExpiresAt.any (fun e => e < now) then
          (db, .error ⟨401, "Refresh token expired"⟩)
        else if ¬ u.isActive then
          (db, .error ⟨403, "Account is deactivated"⟩)
        else
          let pair := generateTokens cfg u.id now
          (updateUserRow db u.id (storeRefreshTokenUpdate pair.2 now), .ok pair)

/-- `OTP_CLEANUP_DAYS` in milliseconds. -/
def otpCleanupMs : Nat := 24 * 60 * 60 * 1000

/-- `TOKEN_CLEANUP_DAYS` in milliseconds. -/
def tokenCleanupMs : Nat := 30 * 24 * 60 * 60 * 1000

/-- The where clause of the OTP half of `cleanupExpiredData`: OTP expired,
or used, or the row untouched for a day — and `currentOtp` non-null.
An SQL comparison against a NULL column is not satisfied. -/
def otpCleanupMatch (u : UserRow) (now : Nat) : Bool :=
  (u.otpExpiresAt.any (fun e => e < now) || u.otpIsUsed ||
    decide (u.updatedAt < now - otpCleanupMs)) && u.currentOtp ≠ none

/-- The where clause of the token half of `cleanupExpiredData`: stored
expiry passed, or revoked more than thirty days ago — and `refreshToken`
non-null. -/
def tokenCleanupMatch (u : UserRow) (now : Nat) : Bool :=
  (u.refreshTokenExpiresAt.any (fun e => e < now) ||
    u.refreshTokenRevokedAt.any (fun r => r < now - tokenCleanupMs)) &&
  u.refreshToken ≠ none

/-- `cleanupExpiredData`: bulk-clear the whole OTP quadruple on matching
rows, then bulk-clear the stored refresh token and its expiry on matching
rows (Sequelize bulk updates also bump `updatedAt`). -/
def cleanupExpiredData (db : List UserRow) (now : Nat) : List UserRow :=
  let db1 := db.map fun u =>
    if otpCleanupMatch u now then
      { u with
          currentOtp := none
          otpExpiresAt := none
          otpAttempts := 0
          otpIsUsed := false
          updatedAt := now }
    else u
  db1.map fun u =>
    if tokenCleanupMatch u now then
      { u with
          refreshToken := none
          refreshTokenExpiresAt := none
          updatedAt := now }
    else u


/-- A row of the `admins` table as defined by `defineAdminModel`
(`admin.model.js`): exactly the declared attributes — id, name, email,
password hash, role, `isActive`, `lastLogin`, and the soft-delete marker.
The model declares no refresh-token attribute of any kind, although the
admin controller writes one (`admin.update({ refreshToken })`, silently
dropped by the ORM for an undeclared attribute) and queries by one
(`Admin.findOne({ where: { refreshToken } })`, which reaches the database
as a reference to a nonexistent column). -/
structure AdminRow where
  id : Nat
  name : String
  email : String
  password : String
  role : String := "admin"
  isActive : Bool := true
  lastLogin : Option Nat := none
  deletedAt : Option Nat := none
  deriving Repr, DecidableEq

/-- `Admin.findOne({ where })` over the table. -/
def findOneAdmin (db : List AdminRow) (p : AdminRow → Bool) : Option AdminRow :=
  db.find? p

/-- `admin.controller.js` `generateTokens(adminId, role)`: an access token
`jwt.sign({ adminId, role })` under the admin access secret with a 1-day
TTL, and a refresh token `jwt.sign({ adminId })` under the admin refresh
secret with a 30-day TTL. -/
def adminGenerateTokens (cfg : JwtCfg) (adminId : Nat) (role : String)
    (now : Nat) : SignedToken × SignedToken :=
  ({ secret := cfg.adminAccessSecret
     adminId := some adminId
     role := some role
     iat := now
     exp := now + 24 * 60 * 60 * 1000 },
   { secret := cfg.adminRefreshSecret
     adminId := some adminId
     iat := now
     exp := now + 30 * 24 * 60 * 60 * 1000 })

/-- `POST /api/admin/refresh-token` (`refreshAdminToken`): a missing body
token fails 400 and a JWT that does not verify under the admin refresh
secret fails 401; after that, the controller runs
`Admin.findOne({ where: { id: decoded.adminId, refreshToken, deletedAt: null } })`.
Because `defineAdminModel` declares no `refreshToken` attribute, that
where clause passes the key through to SQL as a reference to a
nonexistent `admins` column: the query raises a database error, which the
global error handler maps to 500 `'Database error'`. No request ever
reaches the rotation step, and the store is never written. -/
def refreshAdminTokenOp (cfg : JwtCfg) (db : List AdminRow)
    (presented : Option SignedToken) (now : Nat) :
    List AdminRow × Except ApiErr (SignedToken × SignedToken) :=
  match presented with
  | none => (db, .error ⟨400, "Refresh token is required"⟩)
  | some tok =>
    match jwtVerify tok cfg.adminRefreshSecret none none now with
    | .error _ => (db, .error ⟨401, "Invalid refresh token"⟩)
    | .ok _ => (db, .error ⟨500, "Database error"⟩)

/-- The `Authorization` header as the middleware sees it: absent, present
but not of the shape `Bearer <token>`, or carrying a bearer token. -/
inductive AuthHeader where
  | missing
  | malformed (raw : String)
  | bearer (tok : SignedToken)
  deriving Repr, DecidableEq

/-- The per-request context populated by the authentication middleware:
at most one of the user and admin identities. -/
structure ReqCtx where
  userId : Option Nat := none
  user : Option UserRow := none
  adminId : Option Nat := none
  admin : Option AdminRow := none
  deriving Repr, DecidableEq

/-- The user probe of `universalAuth`: `jwt.verify(token, accessSecret)`
(no issuer or audience option at this call site), then
`User.findOne({ where: { id: decoded.userId, deletedAt: null, isActive: true } })`.
A payload without a `userId` claim matches no row. -/
def probeUser (cfg : JwtCfg) (users : List UserRow) (tok : SignedToken)
    (now : Nat) : Option UserRow :=
  match jwtVerify tok cfg.accessSecret none none now with
  | .error _ => none
  | .ok p =>
    match p.userId with
    | none => none
    | some uid =>
      findOneUser users (fun u => u.id == uid && u.deletedAt == none && u.isActive)

/-- The admin probe of `universalAuth`: `jwt.verify(token, adminAccessSecret)`,
then `Admin.findOne({ where: { id: decoded.adminId, deletedAt: null, isActive: true } })`. -/
def probeAdmin (cfg : JwtCfg) (admins : List AdminRow) (tok : SignedToken)
    (now : Nat) : Option AdminRow :=
  match jwtVerify tok cfg.adminAccessSecret none none now with
  | .error _ => none
  | .ok p =>
    match p.adminId with
    | none => none
    | some aid =>
      findOneAdmin admins (fun a => a.id == aid && a.deletedAt == none && a.isActive)

/-- `universalAuth` (`validation.middleware.js`): missing or malformed
header fails 401; otherwise the user probe runs first and, if it resolves,
attaches the user context; otherwise the admin probe runs and, if it
resolves, attaches the admin context; otherwise 401. -/
def universalAuth (cfg : JwtCfg) (users : List UserRow) (admins : List AdminRow)
    (hdr : AuthHeader) (now : Nat) : Except ApiErr ReqCtx :=
  match hdr with
  | .missing => .error ⟨401, "Access token required"⟩
  | .malformed _ => .error ⟨401, "Access token required"⟩
  | .bearer tok =>
    match probeUser cfg users tok now with
    | some u => .ok { userId := some u.id, user := some u }
    | none =>
      match probeAdmin cfg admins tok now with
      | some a => .ok { adminId := some a.id, admin := some a }
      | none => .error ⟨401, "Invalid or expired token"⟩

/-- `auth.middleware.js` `authenticate`: extract the bearer token, verify
it through the token service, load the user by id (non-deleted), reject a
missing user with 401, reject an inactive user with 401
(`res.status(401) ... 'Account is deactivated'`), else attach the user. -/
def authenticate (cfg : JwtCfg) (users : List UserRow) (hdr : AuthHeader)
    (now : Nat) : Except ApiErr ReqCtx :=
  match hdr with
  | .missing => .error ⟨401, "Authentication required"⟩
  | .malformed _ => .error ⟨401, "Authentication required"⟩
  | .bearer tok =>
    match verifyAccessToken cfg tok now with
    | .error msg =>
      .error ⟨401, if msg = "Token expired" then "Token expired"
        else "Invalid authentication token"⟩
    | .ok p =>
      match p.userId with
      | none => .error ⟨401, "Invalid authentication token"⟩
      | some uid =>
        match findOneUser users (fun u => u.id == uid && u.deletedAt == none) with
        | none => .error ⟨401, "Invalid authentication token"⟩
        | some u =>
          if ¬ u.isActive then .error ⟨401, "Account is deactivated"⟩
          else .ok { userId := some u.id, user := some u }

/-- The outcome of the underlying `bcrypt.compare(password, hash)` call:
either a boolean match result or a library-level error (which includes the
malformed-hash case). -/
inductive BcryptOutcome where
  | ok (matched : Bool)
  | err (msg : String)
  deriving Repr, DecidableEq

/-- `comparePassword` (password-flow auth service): returns the boolean
from `bcrypt.compare`; any error from the library is caught, logged, and
rethrown as the generic `Error('Error verifying password')`. -/
def comparePassword : BcryptOutcome → Except String Bool
  | .ok b => .ok b
  | .err _ => .error "Error verifying password"

/-- Claim C6, counterexample: on an internal error of the underlying hash
comparison (here a connection-level failure), `comparePassword` does not
return `false` — it fails with the generic rethrown error — and a
malformed-hash outcome produces the very same generic error rather than a
distinct `CredentialError`. -/
theorem c6_fails_closed_counterexample :
    comparePassword (.err "read ECONNRESET") ≠ Except.ok false ∧
    comparePassword (.err "Not a valid BCrypt hash.") =
      comparePassword (.err "read ECONNRESET") := by
  refine ⟨?_, rfl⟩
  simp [comparePassword]

/-- Claim C6, amended: `comparePassword` does not fail closed — every
internal error of the underlying `bcrypt.compare` is caught, logged, and
rethrown as the single generic `Error('Error verifying password')`, with
no distinct signal for malformed-hash input; only a successful comparison
yields a boolean. -/
theorem c6_compare_password_rethrows_generic (msg : String) (b : Bool) :
    comparePassword (.err msg) = .error "Error verifying password" ∧
    comparePassword (.ok b) = .ok b :=
  ⟨rfl, rfl⟩

/-- Claim C10 (code slip): the claim describes the controller's intended
path — `refreshAdminToken` performs no `isActive`, stored-expiry or
revocation check — but because `defineAdminModel` declares no
`refreshToken` attribute, the stored-token lookup errors at the database
and the admin refresh can never succeed: every request fails (400 without
a token, 401 on a bad JWT, 500 at the lookup) and in particular a request
carrying an unexpired JWT signed with the admin refresh secret for a
concrete non-deleted (and even deactivated) admin yields
500 `'Database error'` instead of a rotation. -/
theorem c10_admin_refresh_never_succeeds :
    (∀ (cfg : JwtCfg) (db : List AdminRow) (presented : Option SignedToken)
      (now : Nat), isErr (refreshAdminTokenOp cfg db presented now).2 = true) ∧
    refreshAdminTokenOp ⟨1, 2, 3, 4, 1000, 2000, "app"⟩
      [{ id := 7, name := "n", email := "e", password := "p",
         isActive := false }]
      (some { secret := 4, adminId := some 7, iat := 0, exp := 100 }) 10 =
      ([{ id := 7, name := "n", email := "e", password := "p",
          isActive := false }],
        .error ⟨500, "Database error"⟩) := by
  constructor
  · intro cfg db presented now
    cases presented with
    | none => rfl
    | some tok =>
      cases h : jwtVerify tok cfg.adminRefreshSecret none none now <;>
        simp [refreshAdminTokenOp, h, isErr]
  · decide

/-- Claim C5: dual-probe request authentication — a missing or malformed
`Authorization` header fails 401; otherwise the user probe (user access
secret, then an active non-deleted user lookup) runs first and, when it
resolves, exactly the user context is attached; when it does not resolve,
the admin probe (admin access secret, active non-deleted admin) runs and,
when it resolves, exactly the admin context is attached; when neither
resolves the request fails 401; and an authenticated context never carries
both identities. -/
theorem c5_universal_auth_dual_probe :
    (∀ (cfg : JwtCfg) (users : List UserRow) (admins : List AdminRow) (now : Nat),
      universalAuth cfg users admins .missing now =
        .error ⟨401, "Access token required"⟩) ∧
    (∀ (cfg : JwtCfg) (users : List UserRow) (admins : List AdminRow)
      (raw : String) (now : Nat),
      universalAuth cfg users admins (.malformed raw) now =
        .error ⟨401, "Access token required"⟩) ∧
    (∀ (cfg : JwtCfg) (users : List UserRow) (admins : List AdminRow)
      (tok : SignedToken) (now : Nat) (u : UserRow),
      probeUser cfg users tok now = some u →
      universalAuth cfg users admins (.bearer tok) now =
        .ok ⟨some u.id, some u, none, none⟩ ∧
      u.isActive = true ∧ u.deletedAt = none) ∧
    (∀ (cfg : JwtCfg) (users : List UserRow) (admins : List AdminRow)
      (tok : SignedToken) (now : Nat) (a : AdminRow),
      probeUser cfg users tok now = none →
      probeAdmin cfg admins tok now = some a →
      universalAuth cfg users admins (.bearer tok) now =
        .ok ⟨none, none, some a.id, some a⟩ ∧
      a.isActive = true ∧ a.deletedAt = none) ∧
    (∀ (cfg : JwtCfg) (users : List UserRow) (admins : List AdminRow)
      (tok : SignedToken) (now : Nat),
      probeUser cfg users tok now = none →
      probeAdmin cfg admins tok now = none →
      universalAuth cfg users admins (.bearer tok) now =
        .error ⟨401, "Invalid or expired token"⟩) ∧
    (∀ (cfg : JwtCfg) (users : List UserRow) (admins : List AdminRow)
      (hdr : AuthHeader) (now : Nat) (ctx : ReqCtx),
      universalAuth cfg users admins hdr now = .ok ctx →
      ctx.user = none ∨ ctx.admin = none) := by
  refine ⟨fun _ _ _ _ => rfl, fun _ _ _ _ _ => rfl, ?_, ?_, ?_, ?_⟩
  · intro cfg users admins tok now u h
    have hfacts : u.isActive = true ∧ u.deletedAt = none := by
      unfold probeUser findOneUser at h
      split at h
      · simp at h
      · split at h
        · simp at h
        · have hp := List.find?_some h
          simp only [Bool.and_eq_true, beq_iff_eq] at hp
          exact ⟨hp.2, hp.1.2⟩
    exact ⟨by simp [universalAuth, h], hfacts.1, hfacts.2⟩
  · intro cfg users admins tok now a h1 h2
    have hfacts : a.isActive = true ∧ a.deletedAt = none := by
      unfold probeAdmin findOneAdmin at h2
      split at h2
      · simp at h2
      · split at h2
        · simp at h2
        · have hp := List.find?_some h2
          simp only [Bool.and_eq_true, beq_iff_eq] at hp
          exact ⟨hp.2, hp.1.2⟩
    exact ⟨by simp [universalAuth, h1, h2], hfacts.1, hfacts.2⟩
  · intro cfg users admins tok now h1 h2
    simp [universalAuth, h1, h2]
  · intro cfg users admins hdr now ctx h
    cases hdr with
    | missing => simp [universalAuth] at h
    | malformed raw => simp [universalAuth] at h
    | bearer tok =>
      unfold universalAuth at h
      dsimp only at h
      split at h
      · cases h; exact Or.inr rfl
      · split at h
        · cases h; exact Or.inl rfl
        · simp at h

/-- Claim C5, witness: with one concrete user and one concrete admin, a
user access token attaches exactly the user context, an admin access token
attaches exactly the admin context, and a token matching neither probe
fails 401. -/
theorem c5_universal_auth_dual_probe_witness :
    universalAuth ⟨1, 2, 3, 4, 1000, 2000, "app"⟩
      [{ id := 5, phoneNumber := "+15550000001", isVerified := true }]
      [{ id := 9, name := "n", email := "e", password := "p" }]
      (.bearer { secret := 1, userId := some 5, iat := 0, exp := 100 }) 10 =
      .ok ⟨some 5, some { id := 5, phoneNumber := "+15550000001", isVerified := true },
        none, none⟩ ∧
    universalAuth ⟨1, 2, 3, 4, 1000, 2000, "app"⟩
      [{ id := 5, phoneNumber := "+15550000001", isVerified := true }]
      [{ id := 9, name := "n", email := "e", password := "p" }]
      (.bearer { secret := 3, adminId := some 9, iat := 0, exp := 100 }) 10 =
      .ok ⟨none, none, some 9,
        some { id := 9, name := "n", email := "e", password := "p" }⟩ ∧
    universalAuth ⟨1, 2, 3, 4, 1000, 2000, "app"⟩
      [{ id := 5, phoneNumber := "+15550000001", isVerified := true }]
      [{ id := 9, name := "n", email := "e", password := "p" }]
      (.bearer { secret := 1, userId := some 6, iat := 0, exp := 100 }) 10 =
      .error ⟨401, "Invalid or expired token"⟩ := by
  refine ⟨?_, ?_, ?_⟩
  · exact (c5_universal_auth_dual_probe.2.2.1 ⟨1, 2, 3, 4, 1000, 2000, "app"⟩
      [{ id := 5, phoneNumber := "+15550000001", isVerified := true }]
      [{ id := 9, name := "n", email := "e", password := "p" }]
      { secret := 1, userId := some 5, iat := 0, exp := 100 } 10
      { id := 5, phoneNumber := "+15550000001", isVerified := true }
      (by decide)).1
  · exact (c5_universal_auth_dual_probe.2.2.2.1 ⟨1, 2, 3, 4, 1000, 2000, "app"⟩
      [{ id := 5, phoneNumber := "+15550000001", isVerified := true }]
      [{ id := 9, name := "n", email := "e", password := "p" }]
      { secret := 3, adminId := some 9, iat := 0, exp := 100 } 10
      { id := 9, name := "n", email := "e", password := "p" }
      (by decide) (by decide)).1
  · exact c5_universal_auth_dual_probe.2.2.2.2.1 ⟨1, 2, 3, 4, 1000, 2000, "app"⟩
      [{ id := 5, phoneNumber := "+15550000001", isVerified := true }]
      [{ id := 9, name := "n", email := "e", password := "p" }]
      { secret := 1, userId := some 6, iat := 0, exp := 100 } 10
      (by decide) (by decide)

/-- Claim C2: `validateOTP` performs its checks in strict short-circuit
order with a distinct failure for each — (a) no OTP on file fails 401
`noOtpErr`; else (b) a used OTP fails 401 `otpUsedErr`; else (c) five or
more recorded attempts fail 429 `tooManyAttemptsErr`; else (d) a passed
expiry fails 401 `otpExpiredErr`; else (e) a mismatch persistently
increments `otpAttempts` and reports `5 - (otpAttempts + 1)` remaining
attempts; else (f) a match validates, the submission step leaves the row
unchanged, and the calling flow's update sets `otpIsUsed` to true. -/
theorem c2_validate_otp_strict_order (u : UserRow) (otp : String) (now : Nat) :
    ((u.currentOtp = none ∨ u.otpExpiresAt = none) →
      validateOTP u otp now = .error noOtpErr ∧ noOtpErr.statusCode = 401) ∧
    (∀ c e, u.currentOtp = some c → u.otpExpiresAt = some e →
      u.otpIsUsed = true →
      validateOTP u otp now = .error otpUsedErr ∧ otpUsedErr.statusCode = 401) ∧
    (∀ c e, u.currentOtp = some c → u.otpExpiresAt = some e →
      u.otpIsUsed = false → 5 ≤ u.otpAttempts →
      validateOTP u otp now = .error tooManyAttemptsErr ∧
      tooManyAttemptsErr.statusCode = 429) ∧
    (∀ c e, u.currentOtp = some c → u.otpExpiresAt = some e →
      u.otpIsUsed = false → u.otpAttempts < 5 → e < now →
      validateOTP u otp now = .error otpExpiredErr ∧
      otpExpiredErr.statusCode = 401) ∧
    (∀ c e, u.currentOtp = some c → u.otpExpiresAt = some e →
      u.otpIsUsed = false → u.otpAttempts < 5 → now ≤ e → c ≠ otp →
      otpSubmit u otp now =
        ({ u with otpAttempts := u.otpAttempts + 1 },
          .error (invalidOtpErr (5 - (u.otpAttempts + 1)))) ∧
      (invalidOtpErr (5 - (u.otpAttempts + 1))).statusCode = 401) ∧
    (∀ c e, u.currentOtp = some c → u.otpExpiresAt = some e →
      u.otpIsUsed = false → u.otpAttempts < 5 → now ≤ e → c = otp →
      validateOTP u otp now = .ok true ∧ otpSubmit u otp now = (u, .ok ()) ∧
      (markOtpUsed u now).otpIsUsed = true) := by
  refine ⟨?_, ?_, ?_, ?_, ?_, ?_⟩
  · rintro (h | h)
    · exact ⟨by simp [validateOTP, h], rfl⟩
    · refine ⟨?_, rfl⟩
      cases hc : u.currentOtp <;> simp [validateOTP, h, hc]
  · intro c e hc he hu
    exact ⟨by simp [validateOTP, hc, he, hu], rfl⟩
  · intro c e hc he hu ha
    exact ⟨by simp [validateOTP, maxOtpAttempts, hc, he, hu, ha], rfl⟩
  · intro c e hc he hu ha hexp
    exact ⟨by simp [validateOTP, maxOtpAttempts, hc, he, hu,
      Nat.not_le.mpr ha, hexp], rfl⟩
  · intro c e hc he hu ha hnow hne
    refine ⟨?_, rfl⟩
    simp [otpSubmit, validateOTP, maxOtpAttempts, hc, he, hu,
      Nat.not_le.mpr ha, Nat.not_lt.mpr hnow, hne]
  · intro c e hc he hu ha hnow heq
    refine ⟨?_, ?_, rfl⟩
    · simp [validateOTP, maxOtpAttempts, hc, he, hu,
        Nat.not_le.mpr ha, Nat.not_lt.mpr hnow, heq]
    · simp [otpSubmit, validateOTP, maxOtpAttempts, hc, he, hu,
        Nat.not_le.mpr ha, Nat.not_lt.mpr hnow, heq]

/-- A concrete user row holding a live OTP, used to exercise the OTP
branches on explicit inputs. -/
def baseOtpUser : UserRow :=
  { id := 1
    phoneNumber := "+15550000001"
    isVerified := true
    currentOtp := some "123456"
    otpExpiresAt := some 100 }

/-- Claim C2, witness: each branch of the ordered check fires on a
concrete user row — no OTP on file, used OTP, exhausted attempts, expired
OTP, a counted mismatch, and a successful match. -/
theorem c2_validate_otp_strict_order_witness :
    (validateOTP { id := 1, phoneNumber := "+15550000001" } "123456" 50 =
      .error noOtpErr) ∧
    (validateOTP { baseOtpUser with otpIsUsed := true } "123456" 50 =
      .error otpUsedErr) ∧
    (validateOTP { baseOtpUser with otpAttempts := 5 } "123456" 50 =
      .error tooManyAttemptsErr) ∧
    (validateOTP baseOtpUser "123456" 200 = .error otpExpiredErr) ∧
    (otpSubmit { baseOtpUser with otpAttempts := 2 } "111111" 50 =
      ({ baseOtpUser with otpAttempts := 3 }, .error (invalidOtpErr 2))) ∧
    (otpSubmit baseOtpUser "123456" 50 = (baseOtpUser, .ok ())) := by
  refine ⟨?_, ?_, ?_, ?_, ?_, ?_⟩
  · exact ((c2_validate_otp_strict_order
      { id := 1, phoneNumber := "+15550000001" } "123456" 50).1 (Or.inl rfl)).1
  · exact ((c2_validate_otp_strict_order
      { baseOtpUser with otpIsUsed := true } "123456" 50).2.1
      "123456" 100 rfl rfl rfl).1
  · exact ((c2_validate_otp_strict_order
      { baseOtpUser with otpAttempts := 5 } "123456" 50).2.2.1
      "123456" 100 rfl rfl rfl (by decide)).1
  · exact ((c2_validate_otp_strict_order baseOtpUser "123456" 200).2.2.2.1
      "123456" 100 rfl rfl rfl (by decide) (by decide)).1
  · exact ((c2_validate_otp_strict_order
      { baseOtpUser with otpAttempts := 2 } "111111" 50).2.2.2.2.1
      "123456" 100 rfl rfl rfl (by decide) (by decide) (by decide)).1
  · exact ((c2_validate_otp_strict_order baseOtpUser "123456" 50).2.2.2.2.2
      "123456" 100 rfl rfl rfl (by decide) (by decide) rfl).2.1

/-- Claim C3: OTP attempt ceiling — starting from a freshly issued OTP
(zero attempts, unused, unexpired), five consecutive submissions of a
wrong code each persistently increment `otpAttempts`, reaching five, and
the sixth verification call fails 429 `tooManyAttemptsErr` even when the
supplied code equals the stored `currentOtp`. -/
theorem c3_otp_attempt_ceiling (u : UserRow) (c w : String) (e now : Nat)
    (hc : u.currentOtp = some c) (he : u.otpExpiresAt = some e)
    (hu : u.otpIsUsed = false) (ha : u.otpAttempts = 0)
    (hw : w ≠ c) (hnow : now ≤ e) :
    (otpSubmit ((otpSubmit ((otpSubmit ((otpSubmit ((otpSubmit
        u w now).1) w now).1) w now).1) w now).1) w now).1 =
      { u with otpAttempts := 5 } ∧
    (otpSubmit { u with otpAttempts := 5 } c now).2 =
      .error tooManyAttemptsErr ∧
    tooManyAttemptsErr.statusCode = 429 := by
  have hcw : c ≠ w := fun h => hw h.symm
  have key : ∀ v : UserRow, v.currentOtp = some c → v.otpExpiresAt = some e →
      v.otpIsUsed = false → v.otpAttempts < 5 →
      otpSubmit v w now = ({ v with otpAttempts := v.otpAttempts + 1 },
        .error (invalidOtpErr (5 - (v.otpAttempts + 1)))) := by
    intro v hc' he' hu' ha'
    simp [otpSubmit, validateOTP, maxOtpAttempts, hc', he', hu',
      Nat.not_le.mpr ha', Nat.not_lt.mpr hnow, hcw]
  have s1 := key u hc he hu (by omega)
  have s2 := key { u with otpAttempts := u.otpAttempts + 1 }
    (by simpa using hc) (by simpa using he) (by simpa using hu)
    (by dsimp only; omega)
  have s3 := key { u with otpAttempts := u.otpAttempts + 1 + 1 }
    (by simpa using hc) (by simpa using he) (by simpa using hu)
    (by dsimp only; omega)
  have s4 := key { u with otpAttempts := u.otpAttempts + 1 + 1 + 1 }
    (by simpa using hc) (by simpa using he) (by simpa using hu)
    (by dsimp only; omega)
  have s5 := key { u with otpAttempts := u.otpAttempts + 1 + 1 + 1 + 1 }
    (by simpa using hc) (by simpa using he) (by simpa using hu)
    (by dsimp only; omega)
  refine ⟨?_, ?_, rfl⟩
  · rw [s1]
    dsimp only
    rw [s2]
    dsimp only
    rw [s3]
    dsimp only
    rw [s4]
    dsimp only
    rw [s5]
    dsimp only
    rw [ha]
  · simp [otpSubmit, validateOTP, maxOtpAttempts, hc, he, hu]

/-- Claim C3, witness: on a concrete fresh OTP row, five wrong submissions
drive the attempt counter to five and the sixth call with the correct code
still fails with the 429 attempt-ceiling error. -/
theorem c3_otp_attempt_ceiling_witness :
    (otpSubmit ((otpSubmit ((otpSubmit ((otpSubmit ((otpSubmit
        baseOtpUser "111111" 50).1) "111111" 50).1) "111111" 50).1)
        "111111" 50).1) "111111" 50).1 =
      { baseOtpUser with otpAttempts := 5 } ∧
    (otpSubmit { baseOtpUser with otpAttempts := 5 } "123456" 50).2 =
      .error tooManyAttemptsErr ∧
    tooManyAttemptsErr.statusCode = 429 :=
  c3_otp_attempt_ceiling baseOtpUser "123456" "111111" 100 50
    rfl rfl rfl rfl (by decide) (by decide)

/-- Claim C8: OTP issuance rate limit — for a user with an OTP on file
(`otpExpiresAt` non-null), a further issuance request on any of the three
issuing endpoints made less than 60 seconds after the row's last update
fails 429 with the ceiling of the remaining wait expressed in seconds, and
the store is returned unchanged (no new OTP is written). -/
theorem c8_otp_issuance_rate_limit :
    (∀ (db : List UserRow) (phone otp : String) (now : Nat) (u : UserRow),
      findOneUser db (fun v => v.phoneNumber == phone && v.deletedAt == none) = some u →
      u.isVerified = true → u.isActive = true →
      u.otpExpiresAt ≠ none → u.updatedAt ≤ now →
      now - u.updatedAt < otpRateLimitMs →
      sendLoginOTPOp db (some phone) otp now =
        (db, .error (rateLimitedErr
          ((otpRateLimitMs - (now - u.updatedAt) + 999) / 1000)))) ∧
    (∀ (db : List UserRow) (phone otp : String) (now : Nat) (u : UserRow),
      findOneUser db (fun v => v.phoneNumber == phone && v.deletedAt == none) = some u →
      u.otpExpiresAt ≠ none → u.updatedAt ≤ now →
      now - u.updatedAt < otpRateLimitMs →
      resendOTPOp db (some phone) otp now =
        (db, .error (rateLimitedErr
          ((otpRateLimitMs - (now - u.updatedAt) + 999) / 1000)))) ∧
    (∀ (db : List UserRow) (phone otp : String) (fn ln : Option String)
      (newId now : Nat) (u : UserRow),
      findOneUser db (fun v => v.phoneNumber == phone && v.deletedAt == none) = some u →
      u.isVerified = false →
      u.otpExpiresAt ≠ none → u.updatedAt ≤ now →
      now - u.updatedAt < otpRateLimitMs →
      sendRegisterOTPOp db (some phone) fn ln otp newId now =
        (db, .error (rateLimitedErr
          ((otpRateLimitMs - (now - u.updatedAt) + 999) / 1000)))) ∧
    (∀ (u : UserRow) (now : Nat), otpRateLimitMs ≤ now - u.updatedAt →
      checkOTPRateLimit u now = none) := by
  have hrl : ∀ (u : UserRow) (now : Nat), u.otpExpiresAt ≠ none →
      now - u.updatedAt < otpRateLimitMs →
      checkOTPRateLimit u now =
        some (rateLimitedErr ((otpRateLimitMs - (now - u.updatedAt) + 999) / 1000)) := by
    intro u now hne hlt
    cases hoe : u.otpExpiresAt with
    | none => exact absurd hoe hne
    | some e => simp [checkOTPRateLimit, hoe, hlt]
  refine ⟨?_, ?_, ?_, ?_⟩
  · intro db phone otp now u hf hver hact hne _ hlt
    simp [sendLoginOTPOp, hf, hver, hact, hrl u now hne hlt]
  · intro db phone otp now u hf hne _ hlt
    simp [resendOTPOp, hf, hrl u now hne hlt]
  · intro db phone otp fn ln newId now u hf hver hne _ hlt
    simp [sendRegisterOTPOp, hf, hver, hrl u now hne hlt]
  · intro u now hge
    cases hoe : u.otpExpiresAt with
    | none => simp [checkOTPRateLimit, hoe]
    | some e => simp [checkOTPRateLimit, hoe, Nat.not_lt.mpr hge]

/-- Claim C8, witness: a concrete user whose OTP was issued 29 seconds ago
is told to wait 31 seconds on each issuing endpoint, with the store left
unchanged, while 60 elapsed seconds pass the check. -/
theorem c8_otp_issuance_rate_limit_witness :
    sendLoginOTPOp [{ baseOtpUser with updatedAt := 1000 }]
      (some "+15550000001") "654321" 30000 =
      ([{ baseOtpUser with updatedAt := 1000 }],
        .error (rateLimitedErr 31)) ∧
    resendOTPOp [{ baseOtpUser with updatedAt := 1000 }]
      (some "+15550000001") "654321" 30000 =
      ([{ baseOtpUser with updatedAt := 1000 }],
        .error (rateLimitedErr 31)) ∧
    sendRegisterOTPOp [{ baseOtpUser with isVerified := false, updatedAt := 1000 }]
      (some "+15550000001") none none "654321" 2 30000 =
      ([{ baseOtpUser with isVerified := false, updatedAt := 1000 }],
        .error (rateLimitedErr 31)) ∧
    checkOTPRateLimit { baseOtpUser with updatedAt := 1000 } 61000 = none := by
  refine ⟨?_, ?_, ?_, ?_⟩
  · exact c8_otp_issuance_rate_limit.1 [{ baseOtpUser with updatedAt := 1000 }]
      "+15550000001" "654321" 30000 { baseOtpUser with updatedAt := 1000 }
      (by decide) (by decide) (by decide) (by decide) (by decide) (by decide)
  · exact c8_otp_issuance_rate_limit.2.1 [{ baseOtpUser with updatedAt := 1000 }]
      "+15550000001" "654321" 30000 { baseOtpUser with updatedAt := 1000 }
      (by decide) (by decide) (by decide) (by decide)
  · exact c8_otp_issuance_rate_limit.2.2.1
      [{ baseOtpUser with isVerified := false, updatedAt := 1000 }]
      "+15550000001" "654321" none none 2 30000
      { baseOtpUser with isVerified := false, updatedAt := 1000 }
      (by decide) (by decide) (by decide) (by decide) (by decide)
  · exact c8_otp_issuance_rate_limit.2.2.2
      { baseOtpUser with updatedAt := 1000 } 61000 (by decide)

/-- The User-row invariant of the data model: a non-null `currentOtp`
implies a non-null `otpExpiresAt`. -/
def otpInv (u : UserRow) : Prop := u.currentOtp ≠ none → u.otpExpiresAt ≠ none

instance (u : UserRow) : Decidable (otpInv u) := by
  unfold otpInv
  infer_instance

/-- Rows written through `updateUserRow` keep `otpInv` when the update
function preserves it. -/
theorem otpInv_updateUserRow (db : List UserRow) (uid : Nat) (f : UserRow → UserRow)
    (hf : ∀ v, otpInv v → otpInv (f v)) (hinv : ∀ v ∈ db, otpInv v) :
    ∀ v ∈ updateUserRow db uid f, otpInv v := by
  intro v hv
  rcases List.mem_map.1 hv with ⟨w, hw, rfl⟩
  by_cases h : w.id = uid
  · simpa [h] using hf w (hinv w hw)
  · simpa [h] using hinv w hw

/-- An issued OTP always carries its expiry: `issueOtpUpdate` sets
`currentOtp` and `otpExpiresAt` together. -/
theorem otpInv_issueOtpUpdate (otp : String) (now : Nat) (v : UserRow) :
    (issueOtpUpdate otp now v).currentOtp = some otp ∧
    (issueOtpUpdate otp now v).otpExpiresAt = some (now + otpExpiryMs) :=
  ⟨rfl, rfl⟩

/-- The OTP half of the cleanup clears `currentOtp` and `otpExpiresAt`
together, so it establishes `otpInv` on matched rows and preserves it on
the rest. -/
theorem otpInv_otpClear (z : UserRow) (now : Nat) (hz : otpInv z) :
    otpInv (if otpCleanupMatch z now then
      { z with
          currentOtp := none
          otpExpiresAt := none
          otpAttempts := 0
          otpIsUsed := false
          updatedAt := now }
      else z) := by
  by_cases h : otpCleanupMatch z now
  · simp [h, otpInv]
  · simpa [h] using hz

/-- The token half of the cleanup does not touch the OTP fields, so it
preserves `otpInv`. -/
theorem otpInv_tokenClear (z : UserRow) (now : Nat) (hz : otpInv z) :
    otpInv (if tokenCleanupMatch z now then
      { z with
          refreshToken := none
          refreshTokenExpiresAt := none
          updatedAt := now }
      else z) := by
  by_cases h : tokenCleanupMatch z now
  · simpa [h, otpInv] using hz
  · simpa [h] using hz

/-- Claim C9: every OTP-writing operation — registration issuance, login
issuance, resend, and expired-data cleanup — preserves the invariant that
a non-null `currentOtp` implies a non-null `otpExpiresAt`; issuance sets
the code and the expiry together (`otpInv_issueOtpUpdate`) and the cleanup
clears them together (`otpInv_otpClear`). -/
theorem c9_otp_state_invariant :
    (∀ (db : List UserRow) (phone fn ln : Option String) (otp : String)
      (newId now : Nat), (∀ v ∈ db, otpInv v) →
      ∀ v ∈ (sendRegisterOTPOp db phone fn ln otp newId now).1, otpInv v) ∧
    (∀ (db : List UserRow) (phone : Option String) (otp : String) (now : Nat),
      (∀ v ∈ db, otpInv v) →
      ∀ v ∈ (sendLoginOTPOp db phone otp now).1, otpInv v) ∧
    (∀ (db : List UserRow) (phone : Option String) (otp : String) (now : Nat),
      (∀ v ∈ db, otpInv v) →
      ∀ v ∈ (resendOTPOp db phone otp now).1, otpInv v) ∧
    (∀ (db : List UserRow) (now : Nat), (∀ v ∈ db, otpInv v) →
      ∀ v ∈ cleanupExpiredData db now, otpInv v) := by
  have hissue : ∀ (otp : String) (now : Nat) (v : UserRow),
      otpInv (issueOtpUpdate otp now v) := by
    intro otp now v
    simp [otpInv, issueOtpUpdate]
  refine ⟨?_, ?_, ?_, ?_⟩
  · intro db phone fn ln otp newId now hinv v hv
    unfold sendRegisterOTPOp at hv
    split at hv
    · exact hinv v (by simpa using hv)
    · split at hv
      · split at hv
        · exact hinv v (by simpa using hv)
        · split at hv
          · exact hinv v (by simpa using hv)
          · exact otpInv_updateUserRow db _ _ (fun w _ => hissue otp now _) hinv v
              (by simpa using hv)
      · dsimp only at hv
        rw [List.mem_append, List.mem_singleton] at hv
        rcases hv with h | rfl
        · exact hinv v h
        · exact hissue otp now _
  · intro db phone otp now hinv v hv
    unfold sendLoginOTPOp at hv
    split at hv
    · exact hinv v (by simpa using hv)
    · split at hv
      · exact hinv v (by simpa using hv)
      · split at hv
        · exact hinv v (by simpa using hv)
        · split at hv
          · exact hinv v (by simpa using hv)
          · split at hv
            · exact hinv v (by simpa using hv)
            · exact otpInv_updateUserRow db _ _ (fun w _ => hissue otp now w) hinv v
                (by simpa using hv)
  · intro db phone otp now hinv v hv
    unfold resendOTPOp at hv
    split at hv
    · exact hinv v (by simpa using hv)
    · split at hv
      · exact hinv v (by simpa using hv)
      · split at hv
        · exact hinv v (by simpa using hv)
        · exact otpInv_updateUserRow db _ _ (fun w _ => hissue otp now w) hinv v
            (by simpa using hv)
  · intro db now hinv v hv
    unfold cleanupExpiredData at hv
    rcases List.mem_map.1 hv with ⟨w, hw, rfl⟩
    rcases List.mem_map.1 hw with ⟨x, hx, rfl⟩
    exact otpInv_tokenClear _ now (otpInv_otpClear x now (hinv x hx))

/-- A concrete two-row store satisfying the OTP-state invariant: one user
with a live OTP, one with an already-used, stale OTP eligible for
cleanup. -/
def db9w : List UserRow :=
  [{ baseOtpUser with updatedAt := 100000 },
   { id := 2
     phoneNumber := "+15550000002"
     currentOtp := some "999999"
     otpExpiresAt := some 150000
     otpIsUsed := true
     updatedAt := 100000 }]

/-- Claim C9, witness: on a concrete two-row store satisfying the
invariant, each OTP-writing operation returns a store all of whose rows
still satisfy it. -/
theorem c9_otp_state_invariant_witness :
    (∀ v ∈ db9w, otpInv v) ∧
    (∀ v ∈ (sendRegisterOTPOp db9w (some "+15550000002") none none "222333" 3 400000).1,
      otpInv v) ∧
    (∀ v ∈ (sendLoginOTPOp db9w (some "+15550000001") "222333" 400000).1, otpInv v) ∧
    (∀ v ∈ (resendOTPOp db9w (some "+15550000001") "222333" 400000).1, otpInv v) ∧
    (∀ v ∈ cleanupExpiredData db9w 400000, otpInv v) := by
  refine ⟨by decide, ?_, ?_, ?_, ?_⟩
  · exact c9_otp_state_invariant.1 db9w (some "+15550000002") none none "222333" 3
      400000 (by decide)
  · exact c9_otp_state_invariant.2.1 db9w (some "+15550000001") "222333" 400000
      (by decide)
  · exact c9_otp_state_invariant.2.2.1 db9w (some "+15550000001") "222333" 400000
      (by decide)
  · exact c9_otp_state_invariant.2.2.2 db9w 400000 (by decide)

/-- Claim C7, counterexample: a request that fails solely because the
resolved user's `isActive` flag is false gets 401 from the bearer-token
`authenticate` middleware — `res.status(401)` with
`'Account is deactivated'` — not the 403 the claim requires for every such
request. -/
theorem c7_inactive_forbidden_counterexample :
    authenticate ⟨1, 2, 3, 4, 1000, 2000, "app"⟩
      [{ id := 5, phoneNumber := "+15550000001", isActive := false,
         isVerified := true }]
      (.bearer (generateAccessToken ⟨1, 2, 3, 4, 1000, 2000, "app"⟩ 5 0)) 10 =
      .error ⟨401, "Account is deactivated"⟩ ∧
    (ApiErr.mk 401 "Account is deactivated").statusCode ≠ 403 := by
  exact ⟨by decide, by decide⟩

/-- Claim C7, amended: inactive-account failures map to 403 on the OTP
login endpoints and the refresh endpoint, but bearer access-token
authentication of an inactive user fails with 401 (`authenticate`), not
403. -/
theorem c7_inactive_status_by_path :
    (∀ (cfg : JwtCfg) (users : List UserRow) (tok : SignedToken) (now uid : Nat)
      (u : UserRow),
      verifyAccessToken cfg tok now = .ok tok → tok.userId = some uid →
      findOneUser users (fun v => v.id == uid && v.deletedAt == none) = some u →
      u.isActive = false →
      authenticate cfg users (.bearer tok) now =
        .error ⟨401, "Account is deactivated"⟩) ∧
    (∀ (cfg : JwtCfg) (db : List UserRow) (tok : SignedToken) (now : Nat)
      (u : UserRow),
      jwtVerify tok cfg.refreshSecret none none now = .ok tok →
      findOneUser db (refreshLookup tok) = some u →
      u.refreshTokenRevokedAt = none →
      u.refreshTokenExpiresAt.any (fun e => e < now) = false →
      u.isActive = false →
      refreshTokenOp cfg db (some tok) now =
        (db, .error ⟨403, "Account is deactivated"⟩)) ∧
    (∀ (db : List UserRow) (phone otp : String) (now : Nat) (u : UserRow),
      findOneUser db (fun v => v.phoneNumber == phone && v.deletedAt == none) = some u →
      u.isVerified = true → u.isActive = false →
      sendLoginOTPOp db (some phone) otp now =
        (db, .error ⟨403, "Account is deactivated. Please contact support"⟩)) ∧
    (∀ (cfg : JwtCfg) (db : List UserRow) (phone otp : String) (now : Nat)
      (u : UserRow),
      findOneUser db (fun v => v.phoneNumber == phone && v.deletedAt == none) = some u →
      u.isVerified = true → u.isActive = false →
      verifyLoginOTPOp cfg db (some phone) (some otp) now =
        (db, .error ⟨403, "Account is deactivated. Please contact support"⟩)) := by
  refine ⟨?_, ?_, ?_, ?_⟩
  · intro cfg users tok now uid u hver huid hfind hact
    simp [authenticate, hver, huid, hfind, hact]
  · intro cfg db tok now u hv hf hrev hexp hact
    simp [refreshTokenOp, hv, hf, hrev, hexp, hact]
  · intro db phone otp now u hf hver hact
    simp [sendLoginOTPOp, hf, hver, hact]
  · intro cfg db phone otp now u hf hver hact
    simp [verifyLoginOTPOp, hf, hver, hact]

/-- A concrete deactivated user holding a stored refresh token whose
signature still verifies. -/
def inactiveTokenUser : UserRow :=
  { baseOtpUser with
      isActive := false
      refreshToken := some { secret := 2, userId := some 1, iat := 0, exp := 100 } }

/-- Claim C7, witness: a concrete inactive user is rejected with 401 by
the bearer-token middleware but with 403 by the OTP-login and refresh
endpoints. -/
theorem c7_inactive_status_by_path_witness :
    authenticate ⟨1, 2, 3, 4, 1000, 2000, "app"⟩
      [{ baseOtpUser with isActive := false }]
      (.bearer (generateAccessToken ⟨1, 2, 3, 4, 1000, 2000, "app"⟩ 1 0)) 10 =
      .error ⟨401, "Account is deactivated"⟩ ∧
    refreshTokenOp ⟨1, 2, 3, 4, 1000, 2000, "app"⟩ [inactiveTokenUser]
      (some { secret := 2, userId := some 1, iat := 0, exp := 100 }) 10 =
      ([inactiveTokenUser], .error ⟨403, "Account is deactivated"⟩) ∧
    sendLoginOTPOp [{ baseOtpUser with isActive := false }]
      (some "+15550000001") "654321" 10 =
      ([{ baseOtpUser with isActive := false }],
        .error ⟨403, "Account is deactivated. Please contact support"⟩) ∧
    verifyLoginOTPOp ⟨1, 2, 3, 4, 1000, 2000, "app"⟩
      [{ baseOtpUser with isActive := false }]
      (some "+15550000001") (some "123456") 10 =
      ([{ baseOtpUser with isActive := false }],
        .error ⟨403, "Account is deactivated. Please contact support"⟩) := by
  refine ⟨?_, ?_, ?_, ?_⟩
  · exact c7_inactive_status_by_path.1 ⟨1, 2, 3, 4, 1000, 2000, "app"⟩
      [{ baseOtpUser with isActive := false }]
      (generateAccessToken ⟨1, 2, 3, 4, 1000, 2000, "app"⟩ 1 0) 10 1
      { baseOtpUser with isActive := false }
      (by decide) (by decide) (by decide) (by decide)
  · exact c7_inactive_status_by_path.2.1 ⟨1, 2, 3, 4, 1000, 2000, "app"⟩
      [inactiveTokenUser]
      { secret := 2, userId := some 1, iat := 0, exp := 100 } 10
      inactiveTokenUser
      (by decide) (by decide) (by decide) (by decide) (by decide)
  · exact c7_inactive_status_by_path.2.2.1 [{ baseOtpUser with isActive := false }]
      "+15550000001" "654321" 10 { baseOtpUser with isActive := false }
      (by decide) (by decide) (by decide)
  · exact c7_inactive_status_by_path.2.2.2 ⟨1, 2, 3, 4, 1000, 2000, "app"⟩
      [{ baseOtpUser with isActive := false }]
      "+15550000001" "123456" 10 { baseOtpUser with isActive := false }
      (by decide) (by decide) (by decide)

/-- Claim C1: refresh-token rotation invalidates the previous token — when
a refresh call presenting token `tok` succeeds (rotating the stored token
to a freshly minted one, whose `iat` is the rotation time), a subsequent
refresh call presenting `tok` against the rotated store fails 401 even
though `tok` still verifies under the refresh secret, because the
stored-token-equality lookup no longer matches any row. -/
theorem c1_rotation_invalidates_old_token
    (cfg : JwtCfg) (db db' : List UserRow) (tok : SignedToken)
    (now1 now2 : Nat) (out : SignedToken × SignedToken)
    (h : refreshTokenOp cfg db (some tok) now1 = (db', .ok out))
    (hfresh : tok.iat ≠ now1)
    (hsig : isErr (jwtVerify tok cfg.refreshSecret none none now2) = false) :
    refreshTokenOp cfg db' (some tok) now2 =
      (db', .error ⟨401, "Refresh token not found or invalid"⟩) := by
  simp only [refreshTokenOp] at h
  split at h
  · simp at h
  · split at h
    · simp at h
    · rename_i u hfind
      split at h
      · simp at h
      · split at h
        · simp at h
        · split at h
          · simp at h
          · rw [Prod.mk.injEq] at h
            obtain ⟨hdb, -⟩ := h
            subst hdb
            have hp := List.find?_some hfind
            unfold refreshLookup at hp
            simp only [Bool.and_eq_true, beq_iff_eq] at hp
            have hne : (generateTokens cfg u.id now1).2 ≠ tok := by
              intro hEq
              apply hfresh
              rw [← hEq]
              rfl
            have hnone : findOneUser
                (updateUserRow db u.id
                  (storeRefreshTokenUpdate (generateTokens cfg u.id now1).2 now1))
                (refreshLookup tok) = none := by
              unfold findOneUser updateUserRow
              refine List.find?_eq_none.2 ?_
              intro x hx
              rcases List.mem_map.1 hx with ⟨v, hv, rfl⟩
              by_cases hid : v.id = u.id
              · rw [if_pos hid]
                simp only [refreshLookup, storeRefreshTokenUpdate,
                  Bool.and_eq_true, beq_iff_eq]
                rintro ⟨⟨-, hEq⟩, -⟩
                exact hne (Option.some.inj hEq.symm).symm
              · rw [if_neg hid]
                simp only [refreshLookup, Bool.and_eq_true, beq_iff_eq, hp.1.1]
                rintro ⟨⟨hEq, -⟩, -⟩
                exact hid (Option.some.inj hEq).symm
            cases hv2 : jwtVerify tok cfg.refreshSecret none none now2 with
            | error e => rw [hv2] at hsig; simp [isErr] at hsig
            | ok q => simp [refreshTokenOp, hv2, hnone]

/-- A concrete refresh token under the refresh secret of the concrete
configuration used by the rotation witness. -/
def c1tok : SignedToken := { secret := 2, userId := some 1, iat := 0, exp := 1000000 }

/-- A concrete one-user store holding `c1tok` as the stored refresh
token. -/
def c1db : List UserRow :=
  [{ baseOtpUser with
       refreshToken := some c1tok
       refreshTokenExpiresAt := some 500000 }]

/-- Claim C1, witness: after a concrete successful rotation at time 10,
presenting the pre-rotation token at time 20 fails 401 at the
stored-token-equality lookup. -/
theorem c1_rotation_invalidates_old_token_witness :
    refreshTokenOp ⟨1, 2, 3, 4, 1000, 2000, "app"⟩
      (refreshTokenOp ⟨1, 2, 3, 4, 1000, 2000, "app"⟩ c1db (some c1tok) 10).1
      (some c1tok) 20 =
      ((refreshTokenOp ⟨1, 2, 3, 4, 1000, 2000, "app"⟩ c1db (some c1tok) 10).1,
        .error ⟨401, "Refresh token not found or invalid"⟩) :=
  c1_rotation_invalidates_old_token ⟨1, 2, 3, 4, 1000, 2000, "app"⟩ c1db
    (refreshTokenOp ⟨1, 2, 3, 4, 1000, 2000, "app"⟩ c1db (some c1tok) 10).1
    c1tok 10 20 (generateTokens ⟨1, 2, 3, 4, 1000, 2000, "app"⟩ 1 10)
    (by decide) (by decide) (by decide)
